import Mathlib

/-!
Verification of the DEF/EVD survival-probability calculator (`src/main.py`).

The Python source is shallowly embedded: Python `int` becomes `ℤ`, dice
configurations and dice outcomes become `List ℤ`, `itertools.product` over
`range(1, faces + 1)` becomes an explicit recursive Cartesian product, and the
final floating-point division `survival_count / total_outcomes` becomes exact
division in `ℚ`, wrapped in `Option` so that Python's `ZeroDivisionError`
(raised exactly when the outcome list is empty) is `none`.
-/

/-- Python `range(1, faces + 1)` as a list of integers: `[1, 2, ..., faces]`,
empty when `faces < 1` (matching Python's empty range for a non-positive stop). -/
def diceRange (faces : ℤ) : List ℤ :=
  (List.range faces.toNat).map (fun (i : ℕ) => (i : ℤ) + 1)

/-- `calculate_def_damage` from `src/main.py`:
`damage = attack_power - def_value - sum(dice_rolls); return max(1, damage)`. -/
def calculate_def_damage (attack_power def_value : ℤ) (dice_rolls : List ℤ) : ℤ :=
  max 1 (attack_power - def_value - dice_rolls.sum)

/-- `calculate_evd_damage` from `src/main.py`:
`0` on successful evasion (`evd_value + sum(dice_rolls) > attack_power`),
otherwise the full `attack_power`. -/
def calculate_evd_damage (attack_power evd_value : ℤ) (dice_rolls : List ℤ) : ℤ :=
  if evd_value + dice_rolls.sum > attack_power then 0 else attack_power

/-- `generate_dice_combinations` from `src/main.py`:
`list(product(*[range(1, faces + 1) for faces in dice_config]))`, with
`itertools.product`'s ordering (first die varies slowest). -/
def generate_dice_combinations : List ℤ → List (List ℤ)
  | [] => [[]]
  | faces :: rest =>
      (diceRange faces).flatMap
        (fun x => (generate_dice_combinations rest).map (fun c => x :: c))

/-- `calculate_survival_probability` from `src/main.py`: count the generated
dice combinations whose damage (via DEF or EVD depending on `use_def`) is
strictly below `current_hp`, and divide by the total number of combinations.
Python raises `ZeroDivisionError` when the combination list is empty; that
branch is `none` here. -/
def calculate_survival_probability (current_hp attack_power def_value evd_value : ℤ)
    (use_def : Bool) (dice_config : List ℤ) : Option ℚ :=
  let dice_combinations := generate_dice_combinations dice_config
  let total_outcomes := dice_combinations.length
  let survival_count := dice_combinations.countP (fun dice_rolls =>
    decide (current_hp >
      (if use_def then calculate_def_damage attack_power def_value dice_rolls
       else calculate_evd_damage attack_power evd_value dice_rolls)))
  if total_outcomes = 0 then none
  else some ((survival_count : ℚ) / (total_outcomes : ℚ))

/-- The three-way comparison inside `analyze_best_choice` in `src/main.py`
(`if def_probability > evd_probability ... elif ... else ...`). -/
def recommendationOf (def_probability evd_probability : ℚ) : String :=
  if def_probability > evd_probability then "DEF"
  else if evd_probability > def_probability then "EVD"
  else "DEF/EVD (相同胜率)"

/-- `analyze_best_choice` from `src/main.py`: run the aggregator once per
defensive choice and compare the two probabilities. -/
def analyze_best_choice (current_hp attack_power def_value evd_value : ℤ)
    (dice_config : List ℤ) : Option (String × ℚ × ℚ) := do
  let def_probability ← calculate_survival_probability
    current_hp attack_power def_value evd_value true dice_config
  let evd_probability ← calculate_survival_probability
    current_hp attack_power def_value evd_value false dice_config
  pure (recommendationOf def_probability evd_probability, def_probability, evd_probability)

/-- `parse_dice_config` from `src/main.py`, modelled on the already-tokenised
list of integers (the `str.split` / `int()` lexing layer is abstracted away):
an empty input yields the default `[6]`; any face count `< 1` raises
`ValueError`, which the `except` branch turns into the default `[6]`;
otherwise the parsed list is returned unchanged. -/
def parse_dice_config (dice_values : List ℤ) : List ℤ :=
  if dice_values = [] then [6]
  else if dice_values.any (fun faces => faces < 1) then [6]
  else dice_values

/-- `parse_quick_input` from `src/main.py`, modelled on the already-tokenised
list of integers: fewer than 4 parts raises `ValueError`; the first four parts
are hp, attack, DEF, EVD; the remaining parts, if any, are taken verbatim as
the dice configuration (no face-count validation), else the default `[6]`. -/
def parse_quick_input : List ℤ → Except String (ℤ × ℤ × ℤ × ℤ × List ℤ)
  | current_hp :: attack_power :: def_value :: evd_value :: rest =>
      Except.ok (current_hp, attack_power, def_value, evd_value,
        if rest = [] then [6] else rest)
  | _ => Except.error "需要至少4个参数"

/-- The multiset of dice-roll sums over the full outcome space. The damage
resolvers read a dice outcome only through its sum, so this multiset
determines both survival counts. -/
def sumsMultiset (cfg : List ℤ) : Multiset ℤ :=
  (↑((generate_dice_combinations cfg).map List.sum) : Multiset ℤ)

theorem mem_diceRange {x faces : ℤ} : x ∈ diceRange faces ↔ 1 ≤ x ∧ x ≤ faces := by
  unfold diceRange
  rw [List.mem_map]
  constructor
  · rintro ⟨i, hi, rfl⟩
    rw [List.mem_range] at hi
    omega
  · rintro ⟨h1, h2⟩
    refine ⟨(x - 1).toNat, ?_, ?_⟩
    · rw [List.mem_range]; omega
    · omega

theorem nodup_diceRange (faces : ℤ) : (diceRange faces).Nodup :=
  List.Nodup.map (fun a b h => by omega) (List.nodup_range _)

theorem length_diceRange (faces : ℤ) : (diceRange faces).length = faces.toNat := by
  unfold diceRange
  rw [List.length_map, List.length_range]

theorem mem_generate_dice_combinations {cfg c : List ℤ} :
    c ∈ generate_dice_combinations cfg
      ↔ List.Forall₂ (fun x f => 1 ≤ x ∧ x ≤ f) c cfg := by
  induction cfg generalizing c with
  | nil => simp [generate_dice_combinations, List.forall₂_nil_right_iff]
  | cons f fs ih =>
    simp only [generate_dice_combinations, List.mem_flatMap, List.mem_map]
    constructor
    · rintro ⟨x, hx, c₀, hc₀, rfl⟩
      exact List.Forall₂.cons (mem_diceRange.mp hx) (ih.mp hc₀)
    · intro h
      cases h with
      | cons hxf htail =>
        exact ⟨_, mem_diceRange.mpr hxf, _, ih.mpr htail, rfl⟩

theorem length_generate_dice_combinations (cfg : List ℤ) :
    (generate_dice_combinations cfg).length = (cfg.map Int.toNat).prod := by
  induction cfg with
  | nil => rfl
  | cons f fs ih =>
    rw [generate_dice_combinations, List.length_flatMap]
    have hconst : List.map (List.length ∘ fun x : ℤ =>
        (generate_dice_combinations fs).map (fun c => x :: c)) (diceRange f)
          = List.replicate (diceRange f).length (generate_dice_combinations fs).length := by
      rw [show (List.length ∘ fun x : ℤ =>
          (generate_dice_combinations fs).map (fun c => x :: c))
            = Function.const ℤ (generate_dice_combinations fs).length from
        funext (fun x => List.length_map _ _)]
      exact List.map_const _ _
    rw [hconst, List.sum_replicate, smul_eq_mul, ih, length_diceRange]
    rw [List.map_cons, List.prod_cons]

theorem nodup_generate_dice_combinations (cfg : List ℤ) :
    (generate_dice_combinations cfg).Nodup := by
  induction cfg with
  | nil => simp [generate_dice_combinations]
  | cons f fs ih =>
    rw [generate_dice_combinations, List.nodup_flatMap]
    refine ⟨fun x _ => List.Nodup.map List.cons_injective ih, ?_⟩
    refine List.Pairwise.imp ?_ (nodup_diceRange f)
    intro a b hab l hla hlb
    rw [List.mem_map] at hla hlb
    obtain ⟨c₁, _, rfl⟩ := hla
    obtain ⟨c₂, _, h⟩ := hlb
    exact hab (List.head_eq_of_cons_eq h.symm)

theorem cast_prod_toNat {cfg : List ℤ} (hval : ∀ f ∈ cfg, 1 ≤ f) :
    (((cfg.map Int.toNat).prod : ℕ) : ℤ) = cfg.prod := by
  induction cfg with
  | nil => rfl
  | cons f fs ih =>
    rw [List.map_cons, List.prod_cons, List.prod_cons, Nat.cast_mul,
      Int.toNat_of_nonneg (by have := hval f (List.mem_cons_self f fs); omega),
      ih (fun g hg => hval g (List.mem_cons_of_mem f hg))]

theorem length_pos_of_valid {cfg : List ℤ} (hval : ∀ f ∈ cfg, 1 ≤ f) :
    0 < (generate_dice_combinations cfg).length := by
  rw [length_generate_dice_combinations]
  apply List.prod_pos
  intro n hn
  rw [List.mem_map] at hn
  obtain ⟨f, hf, rfl⟩ := hn
  have := hval f hf
  omega

theorem generate_eq_nil_of_bad {cfg : List ℤ} (h : ∃ f ∈ cfg, f < 1) :
    generate_dice_combinations cfg = [] := by
  induction cfg with
  | nil => simp at h
  | cons g gs ih =>
    obtain ⟨f, hf, hlt⟩ := h
    rcases List.mem_cons.mp hf with rfl | hf₂
    · have hr : diceRange f = [] := by
        unfold diceRange
        have h0 : f.toNat = 0 := by omega
        rw [h0]
        rfl
      rw [generate_dice_combinations, hr]
      rfl
    · have h2 := ih ⟨f, hf₂, hlt⟩
      rw [generate_dice_combinations, h2]
      simp

theorem sumsMultiset_cons (f : ℤ) (fs : List ℤ) :
    sumsMultiset (f :: fs)
      = (↑(diceRange f) : Multiset ℤ).bind
          (fun x => (sumsMultiset fs).map (fun s => x + s)) := by
  unfold sumsMultiset
  rw [generate_dice_combinations, List.map_flatMap, ← Multiset.coe_bind]
  congr 1
  funext x
  rw [List.map_map, ← Multiset.map_coe, ← Multiset.map_coe, Multiset.map_map]
  refine Multiset.map_congr rfl ?_
  intro c _
  simp [List.sum_cons]

theorem sumsMultiset_perm {cfg₁ cfg₂ : List ℤ} (h : cfg₁.Perm cfg₂) :
    sumsMultiset cfg₁ = sumsMultiset cfg₂ := by
  induction h with
  | nil => rfl
  | cons x h ih => rw [sumsMultiset_cons, sumsMultiset_cons, ih]
  | swap x y l =>
    rw [sumsMultiset_cons, sumsMultiset_cons, sumsMultiset_cons, sumsMultiset_cons]
    simp only [Multiset.map_bind, Multiset.map_map]
    rw [Multiset.bind_bind]
    congr 1
    funext a
    congr 1
    funext b
    congr 1
    funext s
    simp only [Function.comp_apply]
    ring
  | trans h₁ h₂ ih₁ ih₂ => exact ih₁.trans ih₂

theorem sums_perm {cfg₁ cfg₂ : List ℤ} (h : cfg₁.Perm cfg₂) :
    ((generate_dice_combinations cfg₁).map List.sum).Perm
      ((generate_dice_combinations cfg₂).map List.sum) :=
  Multiset.coe_eq_coe.mp (sumsMultiset_perm h)

/-- C1: the flat-reduction resolver returns
`max(1, attack_strength - flat_reduction_stat - sum(dice_outcome))`, and in
particular the returned damage is at least 1 for all integer inputs. -/
theorem C1_def_damage_floor (attack_power def_value : ℤ) (dice_rolls : List ℤ) :
    calculate_def_damage attack_power def_value dice_rolls
      = max 1 (attack_power - def_value - dice_rolls.sum)
    ∧ 1 ≤ calculate_def_damage attack_power def_value dice_rolls :=
  ⟨rfl, le_max_left _ _⟩

/-- C2: for positive attack strength, the evasion resolver returns 0 exactly
when `evasion_stat + sum(dice_outcome) > attack_strength`, returns the full
attack strength otherwise, and never returns an intermediate value. -/
theorem C2_evd_all_or_nothing (attack_power evd_value : ℤ) (dice_rolls : List ℤ)
    (hatk : 0 < attack_power) :
    (calculate_evd_damage attack_power evd_value dice_rolls = 0
      ↔ attack_power < evd_value + dice_rolls.sum)
    ∧ (calculate_evd_damage attack_power evd_value dice_rolls = attack_power
      ↔ ¬ attack_power < evd_value + dice_rolls.sum)
    ∧ (calculate_evd_damage attack_power evd_value dice_rolls = 0
      ∨ calculate_evd_damage attack_power evd_value dice_rolls = attack_power) := by
  unfold calculate_evd_damage
  split
  · refine ⟨by simp_all, ?_, Or.inl rfl⟩
    constructor
    · intro h; omega
    · intro h; exact absurd (by assumption) h
  · refine ⟨?_, by simp_all, Or.inr rfl⟩
    constructor
    · intro h; omega
    · intro h; exact absurd h (by assumption)

/-- Witness for C2 at a concrete input. -/
theorem C2_evd_all_or_nothing_witness :
    (0 : ℤ) < 5
    ∧ ((calculate_evd_damage 5 1 [6] = 0 ↔ (5 : ℤ) < 1 + [6].sum)
      ∧ (calculate_evd_damage 5 1 [6] = 5 ↔ ¬ (5 : ℤ) < 1 + [6].sum)
      ∧ (calculate_evd_damage 5 1 [6] = 0 ∨ calculate_evd_damage 5 1 [6] = 5)) :=
  ⟨by norm_num, C2_evd_all_or_nothing 5 1 [6] (by norm_num)⟩

/-- C10: the DEF-branch probability ignores the evasion stat and the
EVD-branch probability ignores the flat-reduction stat: changing the unused
stat never changes the aggregator's result. -/
theorem C10_unused_stat_independence (current_hp attack_power : ℤ)
    (def_value evd_value₁ evd_value₂ def_value₁ def_value₂ evd_value : ℤ)
    (dice_config : List ℤ) :
    calculate_survival_probability current_hp attack_power def_value evd_value₁
        true dice_config
      = calculate_survival_probability current_hp attack_power def_value evd_value₂
        true dice_config
    ∧ calculate_survival_probability current_hp attack_power def_value₁ evd_value
        false dice_config
      = calculate_survival_probability current_hp attack_power def_value₂ evd_value
        false dice_config :=
  ⟨rfl, rfl⟩

/-- C3: under the validation precondition, the probability aggregator returns
`survival_count / total_outcome_count`, where `survival_count` counts the
generated outcomes whose resolved damage is strictly below the current hit
points (damage equal to hit points counts as death) and
`total_outcome_count` is the number of generated outcomes. -/
theorem C3_survival_ratio (current_hp attack_power def_value evd_value : ℤ)
    (use_def : Bool) (cfg : List ℤ) (_hne : cfg ≠ []) (hval : ∀ f ∈ cfg, 1 ≤ f) :
    calculate_survival_probability current_hp attack_power def_value evd_value use_def cfg
      = some ((((generate_dice_combinations cfg).filter (fun dice_rolls =>
            decide (current_hp >
              (if use_def then calculate_def_damage attack_power def_value dice_rolls
               else calculate_evd_damage attack_power evd_value dice_rolls)))).length : ℚ)
          / ((generate_dice_combinations cfg).length : ℚ)) := by
  have hpos := length_pos_of_valid hval
  unfold calculate_survival_probability
  rw [if_neg (by omega), List.countP_eq_length_filter]

/-- Witness for C3 at a concrete input. -/
theorem C3_survival_ratio_witness :
    calculate_survival_probability 3 5 2 1 true [6]
      = some ((((generate_dice_combinations [6]).filter (fun dice_rolls =>
            decide ((3 : ℤ) >
              (if true then calculate_def_damage 5 2 dice_rolls
               else calculate_evd_damage 5 1 dice_rolls)))).length : ℚ)
          / ((generate_dice_combinations [6]).length : ℚ)) :=
  C3_survival_ratio 3 5 2 1 true [6] (by decide) (by decide)

/-- C4: for a configuration whose face counts are all at least 1, the
combination generator enumerates exactly the Cartesian product of the ranges
`[1, faces_i]`: its length is the product of the face counts, membership is
exactly positionwise boundedness (which also forces the right length and
covers every combination), and the enumerated outcomes are pairwise
distinct. -/
theorem C4_combination_generator (cfg : List ℤ) (hval : ∀ f ∈ cfg, 1 ≤ f) :
    (((generate_dice_combinations cfg).length : ℕ) : ℤ) = cfg.prod
    ∧ (∀ c, c ∈ generate_dice_combinations cfg
        ↔ List.Forall₂ (fun x f => 1 ≤ x ∧ x ≤ f) c cfg)
    ∧ (generate_dice_combinations cfg).Nodup := by
  refine ⟨?_, fun c => mem_generate_dice_combinations, nodup_generate_dice_combinations cfg⟩
  rw [length_generate_dice_combinations]
  exact cast_prod_toNat hval

/-- Witness for C4 at a concrete input. -/
theorem C4_combination_generator_witness :
    (((generate_dice_combinations [4, 6]).length : ℕ) : ℤ) = List.prod [4, 6]
    ∧ (∀ c, c ∈ generate_dice_combinations [4, 6]
        ↔ List.Forall₂ (fun x f => 1 ≤ x ∧ x ≤ f) c [4, 6])
    ∧ (generate_dice_combinations [4, 6]).Nodup :=
  C4_combination_generator [4, 6] (by decide)

/-- C5: the recommendation comparison returns the prefer-DEF symbol exactly
when the DEF probability is strictly greater, the prefer-EVD symbol exactly
when the EVD probability is strictly greater, and the tie symbol exactly when
the two probabilities are equal, with no tolerance. -/
theorem C5_recommendation_trichotomy (dp ep : ℚ) :
    (recommendationOf dp ep = "DEF" ↔ ep < dp)
    ∧ (recommendationOf dp ep = "EVD" ↔ dp < ep)
    ∧ (recommendationOf dp ep = "DEF/EVD (相同胜率)" ↔ dp = ep) := by
  unfold recommendationOf
  split_ifs with h1 h2
  · refine ⟨⟨fun _ => h1, fun _ => rfl⟩,
      ⟨fun hs => absurd hs (by decide), fun hlt => absurd h1 (lt_asymm hlt)⟩,
      ⟨fun hs => absurd hs (by decide), fun heq => absurd h1 (by rw [heq]; exact lt_irrefl ep)⟩⟩
  · refine ⟨⟨fun hs => absurd hs (by decide), fun hlt => absurd hlt h1⟩,
      ⟨fun _ => h2, fun _ => rfl⟩,
      ⟨fun hs => absurd hs (by decide), fun heq => absurd h2 (by rw [heq]; exact lt_irrefl ep)⟩⟩
  · have heq : dp = ep := le_antisymm (not_lt.mp h1) (not_lt.mp h2)
    refine ⟨⟨fun hs => absurd hs (by decide), fun hlt => absurd hlt h1⟩,
      ⟨fun hs => absurd hs (by decide), fun hlt => absurd hlt h2⟩,
      ⟨fun _ => heq, fun _ => rfl⟩⟩

/-- C6: on hit points 3, attack 5, DEF stat 2, EVD stat 1 and a single
6-sided die, the analysis returns DEF probability exactly 1, EVD probability
exactly 2/6, and the prefer-DEF recommendation. -/
theorem C6_example_one :
    analyze_best_choice 3 5 2 1 [6] = some ("DEF", 1, 2 / 6) := by
  have hdef : calculate_survival_probability 3 5 2 1 true [6] = some 1 := by
    have h : generate_dice_combinations [6] = [[1], [2], [3], [4], [5], [6]] := rfl
    unfold calculate_survival_probability
    rw [h]
    norm_num [List.countP_cons, calculate_def_damage]
  have hevd : calculate_survival_probability 3 5 2 1 false [6] = some (2 / 6) := by
    have h : generate_dice_combinations [6] = [[1], [2], [3], [4], [5], [6]] := rfl
    unfold calculate_survival_probability
    rw [h]
    norm_num [List.countP_cons, calculate_evd_damage]
  unfold analyze_best_choice
  rw [hdef, hevd]
  show some (recommendationOf 1 (2 / 6), 1, 2 / 6) = _
  norm_num [recommendationOf]

/-- C7 counterexample: the quick-input path propagates a dice face count of 0
(which is < 1) into the returned dice configuration instead of substituting
the default `[6]`. -/
theorem C7_counterexample :
    parse_quick_input [3, 5, 2, 1, 0] = Except.ok (3, 5, 2, 1, [0])
    ∧ (0 : ℤ) < 1 := by
  constructor
  · rfl
  · norm_num

/-- C7 amended: only `parse_dice_config` (the detailed interactive path)
substitutes the default `[6]` for inputs containing a face count < 1;
`parse_quick_input` performs no face-count validation and returns such face
counts unchanged to its caller. -/
theorem C7_amended_dice_validation (dice_values : List ℤ)
    (hbad : ∃ f ∈ dice_values, f < 1)
    (current_hp attack_power def_value evd_value : ℤ) :
    parse_dice_config dice_values = [6]
    ∧ parse_quick_input
        (current_hp :: attack_power :: def_value :: evd_value :: dice_values)
      = Except.ok (current_hp, attack_power, def_value, evd_value, dice_values) := by
  obtain ⟨f, hf, hflt⟩ := hbad
  have hne : dice_values ≠ [] := by rintro rfl; simp at hf
  constructor
  · unfold parse_dice_config
    rw [if_neg hne, if_pos]
    rw [List.any_eq_true]
    exact ⟨f, hf, by simpa using hflt⟩
  · show Except.ok (current_hp, attack_power, def_value, evd_value,
        if dice_values = [] then [6] else dice_values) = _
    rw [if_neg hne]

/-- Witness for the amended C7 at a concrete input. -/
theorem C7_amended_dice_validation_witness :
    parse_dice_config [0] = [6]
    ∧ parse_quick_input [9, 4, 2, 1, 0] = Except.ok (9, 4, 2, 1, [0]) :=
  C7_amended_dice_validation [0] ⟨0, by decide, by decide⟩ 9 4 2 1

/-- C8: under the validation precondition the outcome space is non-empty and
the aggregator succeeds (its division-by-zero branch is unreachable);
conversely, a face count < 1 makes the outcome space empty and the
aggregation fail. -/
theorem C8_totality (current_hp attack_power def_value evd_value : ℤ)
    (use_def : Bool) (cfg : List ℤ) :
    ((cfg ≠ [] ∧ (∀ f ∈ cfg, 1 ≤ f) ∧ 0 < current_hp ∧ 0 < attack_power) →
      1 ≤ (generate_dice_combinations cfg).length
      ∧ (calculate_survival_probability current_hp attack_power def_value evd_value
          use_def cfg).isSome = true)
    ∧ ((∃ f ∈ cfg, f < 1) →
      generate_dice_combinations cfg = []
      ∧ calculate_survival_probability current_hp attack_power def_value evd_value
          use_def cfg = none) := by
  constructor
  · rintro ⟨hne, hval, hhp, hatk⟩
    have hpos := length_pos_of_valid hval
    refine ⟨hpos, ?_⟩
    unfold calculate_survival_probability
    rw [if_neg (by omega)]
    rfl
  · intro hbad
    have h2 := generate_eq_nil_of_bad hbad
    refine ⟨h2, ?_⟩
    unfold calculate_survival_probability
    rw [h2]
    rfl

/-- Witness for C8 at concrete inputs: a valid configuration succeeds, a
configuration with a 0-faced die fails. -/
theorem C8_totality_witness :
    (1 ≤ (generate_dice_combinations [6]).length
      ∧ (calculate_survival_probability 3 5 2 1 true [6]).isSome = true)
    ∧ (generate_dice_combinations [0] = []
      ∧ calculate_survival_probability 3 5 2 1 true [0] = none) :=
  ⟨(C8_totality 3 5 2 1 true [6]).1 ⟨by decide, by decide, by decide, by decide⟩,
   (C8_totality 3 5 2 1 true [0]).2 ⟨0, by decide, by decide⟩⟩

/-- C9: permuting the dice configuration never changes the computed survival
probability, for either resolver selection. -/
theorem C9_permutation_invariance (current_hp attack_power def_value evd_value : ℤ)
    (use_def : Bool) (cfg₁ cfg₂ : List ℤ) (hperm : cfg₁.Perm cfg₂)
    (_hne : cfg₁ ≠ []) (_hval : ∀ f ∈ cfg₁, 1 ≤ f) :
    calculate_survival_probability current_hp attack_power def_value evd_value use_def cfg₁
      = calculate_survival_probability current_hp attack_power def_value evd_value
          use_def cfg₂ := by
  have hsums := sums_perm hperm
  have hlen : (generate_dice_combinations cfg₁).length
      = (generate_dice_combinations cfg₂).length := by
    have hl := hsums.length_eq
    rwa [List.length_map, List.length_map] at hl
  have hkey : (generate_dice_combinations cfg₁).countP (fun dice_rolls =>
        decide (current_hp >
          (if use_def then calculate_def_damage attack_power def_value dice_rolls
           else calculate_evd_damage attack_power evd_value dice_rolls)))
      = (generate_dice_combinations cfg₂).countP (fun dice_rolls =>
        decide (current_hp >
          (if use_def then calculate_def_damage attack_power def_value dice_rolls
           else calculate_evd_damage attack_power evd_value dice_rolls))) := by
    have h2 := List.Perm.countP_eq (fun s : ℤ =>
      decide (current_hp >
        (if use_def then max 1 (attack_power - def_value - s)
         else if evd_value + s > attack_power then 0 else attack_power))) hsums
    rw [List.countP_map, List.countP_map] at h2
    exact h2
  simp only [calculate_survival_probability]
  rw [hlen, hkey]

/-- Witness for C9 at a concrete input: swapping a 4-die and a 6-die. -/
theorem C9_permutation_invariance_witness :
    calculate_survival_probability 3 5 2 1 true [4, 6]
      = calculate_survival_probability 3 5 2 1 true [6, 4] :=
  C9_permutation_invariance 3 5 2 1 true [4, 6] [6, 4] (by decide) (by decide) (by decide)
